import Mathlib

/-!
Shallow embedding of `pco_cli/src/dtypes.rs`: the numeric type bridge between
pco's canonical scalar kinds, Arrow in-memory descriptors, and Parquet logical
types.  Machine integers are modelled as `Nat` (unsigned) or `Int` (signed)
with explicit wrapping where Rust `as` casts truncate; IEEE half/single floats
are modelled by their bit patterns as `Nat`.
-/

namespace PcoDtypes

/-- Arrow `TimeUnit` (parameter of the `Timestamp` descriptor). -/
inductive TimeUnit
| second
| millisecond
| microsecond
| nanosecond
deriving DecidableEq, Fintype

/-- Debug name of a time unit, as the arrow crate renders it. -/
def TimeUnit.debugName : TimeUnit → String
| .second => "Second"
| .millisecond => "Millisecond"
| .microsecond => "Microsecond"
| .nanosecond => "Nanosecond"

/-- Arrow `DataType` descriptors, restricted to the constructors the bridge
examines: the nine primitive numeric descriptors, the temporal descriptors
(`Timestamp` with a unit and an optional timezone, `Date32`, `Date64`), and the
unsupported descriptors named by the spec (list, struct, utf8, boolean,
binary; their field/child details are elided, only the descriptor name
matters for the error message). -/
inductive ArrowDataType
| float16
| float32
| float64
| int16
| int32
| int64
| uint16
| uint32
| uint64
| timestamp (unit : TimeUnit) (tz : Option String)
| date32
| date64
| list
| struct
| utf8
| boolean
| binary
deriving DecidableEq

/-- Debug rendering of an Arrow descriptor (what `{:?}` interpolates into the
`from_arrow` error message). -/
def ArrowDataType.debugName : ArrowDataType → String
| .float16 => "Float16"
| .float32 => "Float32"
| .float64 => "Float64"
| .int16 => "Int16"
| .int32 => "Int32"
| .int64 => "Int64"
| .uint16 => "UInt16"
| .uint32 => "UInt32"
| .uint64 => "UInt64"
| .timestamp u tz =>
    "Timestamp(" ++ u.debugName ++ ", " ++
      (match tz with
       | none => "None"
       | some s => "Some(\"" ++ s ++ "\")") ++ ")"
| .date32 => "Date32"
| .date64 => "Date64"
| .list => "List"
| .struct => "Struct"
| .utf8 => "Utf8"
| .boolean => "Boolean"
| .binary => "Binary"

/-- pco's canonical scalar kinds (`pco::data_types::NumberType`), the closed
nine-element set the bridge dispatches over. -/
inductive NumberType
| F16
| F32
| F64
| I16
| I32
| I64
| U16
| U32
| U64
deriving DecidableEq, Fintype

/-- Rust type name of the canonical kind, as `any::type_name` interpolates it
into the default-method panic messages (module paths elided; the bare type
name occurs in the rendered name either way). -/
def NumberType.typeName : NumberType → String
| .F16 => "f16"
| .F32 => "f32"
| .F64 => "f64"
| .I16 => "i16"
| .I32 => "i32"
| .I64 => "i64"
| .U16 => "u16"
| .U32 => "u32"
| .U64 => "u64"

/-- `from_arrow` (dtypes.rs lines 295-317): resolve an Arrow descriptor to a
canonical kind, or report the offending descriptor in an error string. -/
def from_arrow : ArrowDataType → Except String NumberType
| .float16 => .ok .F16
| .float32 => .ok .F32
| .float64 => .ok .F64
| .int16 => .ok .I16
| .int32 => .ok .I32
| .int64 => .ok .I64
| .uint16 => .ok .U16
| .uint32 => .ok .U32
| .uint64 => .ok .U64
| .timestamp _ _ => .ok .I64
| .date32 => .ok .I32
| .date64 => .ok .I64
| other => .error ("unable to convert arrow dtype " ++ other.debugName ++ " to pco")

/-- `to_arrow` (dtypes.rs lines 319-335): the reverse mapping.  Its `other`
panic arm is unreachable for the nine canonical kinds modelled here. -/
def to_arrow : NumberType → ArrowDataType
| .F16 => .float16
| .F32 => .float32
| .F64 => .float64
| .I16 => .int16
| .I32 => .int32
| .I64 => .int64
| .U16 => .uint16
| .U32 => .uint32
| .U64 => .uint64

/-- `Parquetable::PARQUET_DTYPE_STR`, collected across the nine impls
(dtypes.rs lines 167-244). -/
def PARQUET_DTYPE_STR : NumberType → String
| .F32 => "FLOAT"
| .F64 => "DOUBLE"
| .I32 => "INT32"
| .I64 => "INT64"
| .F16 => "FLOAT"
| .I16 => "INT32"
| .U16 => "INT32"
| .U32 => "INT32"
| .U64 => "INT64"

/-- `Parquetable::TRANSMUTABLE`, collected across the nine impls: the trait
default is `true` (line 15); the f16/i16/u16 impls override it to `false`
(lines 176, 191, 204); the other six impls keep the default. -/
def TRANSMUTABLE : NumberType → Bool
| .F16 => false
| .I16 => false
| .U16 => false
| _ => true

/-- Two's-complement reinterpretation of a `w`-bit unsigned bit pattern as a
signed value (Rust `mem::transmute` of `uN` to `iN` element slices). -/
def toSigned (w : Nat) (x : Nat) : Int :=
  if x < 2 ^ (w - 1) then (x : Int) else (x : Int) - 2 ^ w

/-- The `w`-bit unsigned bit pattern of a signed value (Rust `mem::transmute`
of `iN` back to `uN` element slices, and the low-bits part of `as uN`). -/
def toUnsigned (w : Nat) (x : Int) : Nat := (x % ((2 : Int) ^ w)).toNat

namespace U32

/-- `<u32 as Parquetable>::transmute_nums_to_parquet` (lines 222-226):
bit-pattern reinterpretation of each u32 as an i32. -/
def transmute_nums_to_parquet (nums : List Nat) : List Int :=
  nums.map (toSigned 32)

/-- `<u32 as Parquetable>::parquet_to_nums` (lines 227-229): bit-pattern
reinterpretation of each i32 back to a u32. -/
def parquet_to_nums (vec : List Int) : List Nat :=
  vec.map (toUnsigned 32)

end U32

namespace U64

/-- `<u64 as Parquetable>::transmute_nums_to_parquet` (lines 236-240). -/
def transmute_nums_to_parquet (nums : List Nat) : List Int :=
  nums.map (toSigned 64)

/-- `<u64 as Parquetable>::parquet_to_nums` (lines 241-243). -/
def parquet_to_nums (vec : List Int) : List Nat :=
  vec.map (toUnsigned 64)

end U64

namespace I16

/-- Rust `x as i16` applied to an i32: wrap to the low 16 bits, interpreted in
two's complement. -/
def i32_as_i16 (x : Int) : Int := (x + 2 ^ 15) % 2 ^ 16 - 2 ^ 15

/-- `<i16 as Parquetable>::copy_nums_to_parquet` (lines 194-196): `x as i32`
sign-extends each i16, which is the identity on the represented value. -/
def copy_nums_to_parquet (nums : List Int) : List Int :=
  nums.map (fun x => x)

/-- `<i16 as Parquetable>::parquet_to_nums` (lines 197-199): `x as i16`
truncates each i32 to its low 16 bits. -/
def parquet_to_nums (vec : List Int) : List Int :=
  vec.map i32_as_i16

end I16

namespace U16

/-- Rust `x as u16` applied to an i32: the low 16 bits as an unsigned value. -/
def i32_as_u16 (x : Int) : Nat := toUnsigned 16 x

/-- `<u16 as Parquetable>::copy_nums_to_parquet` (lines 207-209): `x as i32`
zero-extends each u16, which embeds the value unchanged. -/
def copy_nums_to_parquet (nums : List Nat) : List Int :=
  nums.map Int.ofNat

/-- `<u16 as Parquetable>::parquet_to_nums` (lines 210-212): `x as u16`
truncates each i32 to its low 16 bits. -/
def parquet_to_nums (vec : List Int) : List Nat :=
  vec.map i32_as_u16

end U16

namespace F16

/-- Bit length of a half-precision mantissa `1 ≤ m < 1024`, written as an
explicit chain so the kernel can evaluate it (translates the
`leading_zeros` computation of the half crate: `leading_zeros m = 16 - bitLen m`). -/
def mantissaBitLen (m : Nat) : Nat :=
  if m ≥ 512 then 10
  else if m ≥ 256 then 9
  else if m ≥ 128 then 8
  else if m ≥ 64 then 7
  else if m ≥ 32 then 6
  else if m ≥ 16 then 5
  else if m ≥ 8 then 4
  else if m ≥ 4 then 3
  else if m ≥ 2 then 2
  else 1

/-- Modelled from the spec: `half::f16::to_f32` (the half crate is a
dependency outside src/), the exact widening of an IEEE binary16 bit pattern
to the IEEE binary32 bit pattern of the same value ("expand to the nearest
32-bit float on encode"), covering signed zeros, subnormals, normals,
infinities and NaNs. -/
def to_f32_bits (i : Nat) : Nat :=
  if i % 2 ^ 15 = 0 then
    (i / 2 ^ 15) * 2 ^ 31
  else
    let sign := i / 2 ^ 15 % 2
    let hexp := i / 2 ^ 10 % 2 ^ 5
    let hman := i % 2 ^ 10
    if hexp = 31 then
      if hman = 0 then sign * 2 ^ 31 + 0x7F800000
      else sign * 2 ^ 31 + Nat.lor 0x7FC00000 (hman * 2 ^ 13)
    else if hexp = 0 then
      let e := 10 - mantissaBitLen hman
      sign * 2 ^ 31 + (112 - e) * 2 ^ 23 + hman * 2 ^ (14 + e) % 2 ^ 23
    else
      sign * 2 ^ 31 + (hexp + 112) * 2 ^ 23 + hman * 2 ^ 13

/-- Modelled from the spec: `half::f16::from_f32` (the half crate is a
dependency outside src/), rounding an IEEE binary32 bit pattern to the nearest
IEEE binary16 bit pattern, ties to even ("round/convert back to half precision
on decode"). -/
def from_f32_bits (x : Nat) : Nat :=
  let sign := x / 2 ^ 31 % 2
  let exp := x / 2 ^ 23 % 2 ^ 8
  let man := x % 2 ^ 23
  if exp = 255 then
    sign * 2 ^ 15 + Nat.lor (Nat.lor 0x7C00 (if man = 0 then 0 else 0x200)) (man / 2 ^ 13)
  else if exp ≥ 143 then
    sign * 2 ^ 15 + 0x7C00
  else if exp ≤ 112 then
    if exp < 102 then sign * 2 ^ 15
    else
      let man2 := man + 2 ^ 23
      let s := 126 - exp
      let hman := man2 / 2 ^ s
      let rounded :=
        if man2 / 2 ^ (s - 1) % 2 = 1 ∧ (man2 / 2 ^ s % 2 = 1 ∨ man2 % 2 ^ (s - 1) ≠ 0)
        then hman + 1 else hman
      sign * 2 ^ 15 + rounded
  else
    let half := sign * 2 ^ 15 + (exp - 112) * 2 ^ 10 + man / 2 ^ 13
    if x / 2 ^ 12 % 2 = 1 ∧ (x / 2 ^ 13 % 2 = 1 ∨ x % 2 ^ 12 ≠ 0)
    then half + 1 else half

/-- `<f16 as Parquetable>::copy_nums_to_parquet` (lines 181-183): convert each
half-precision value to an f32 (tracked by bit pattern). -/
def copy_nums_to_parquet (nums : List Nat) : List Nat :=
  nums.map to_f32_bits

/-- `<f16 as Parquetable>::parquet_to_nums` (lines 184-186): convert each f32
back to half precision (tracked by bit pattern). -/
def parquet_to_nums (vec : List Nat) : List Nat :=
  vec.map from_f32_bits

end F16

/-- Panic message of the default `transmute_nums_to_parquet` body
(dtypes.rs lines 19-26). -/
def transmute_panic_msg (k : NumberType) : String :=
  "transmutation for Parquet " ++ k.typeName ++
    " type has not yet been implemented in Pco CLI"

/-- Panic message of the default `copy_nums_to_parquet` body
(dtypes.rs lines 27-34). -/
def copy_panic_msg (k : NumberType) : String :=
  "conversion for Parquet " ++ k.typeName ++
    " type has not yet been implemented in Pco CLI"

/-- Modelled from the spec: the Type-Erased Vector (`crate::num_vec::NumVec`,
whose module is outside src/): one owned buffer per canonical kind, the
discriminant bound to the element kind at construction.  Floats are tracked by
bit pattern. -/
inductive NumVec
| F16 (xs : List Nat)
| F32 (xs : List Nat)
| F64 (xs : List Nat)
| I16 (xs : List Int)
| I32 (xs : List Int)
| I64 (xs : List Int)
| U16 (xs : List Nat)
| U32 (xs : List Nat)
| U64 (xs : List Nat)
deriving DecidableEq

/-- A Parquet column buffer in one of the four physical slot types the bridge
uses (FLOAT / DOUBLE tracked by bit pattern, INT32 / INT64 as signed values). -/
inductive ParquetVec
| float (xs : List Nat)
| double (xs : List Nat)
| int32 (xs : List Int)
| int64 (xs : List Int)
deriving DecidableEq

/-- Dispatch of the zero-copy encode path over the erased kind: each arm is
the registered impl body (identity transmute for f32/f64/i32/i64 via the
`parquetable!` macro, bit-pattern reinterpretation for u32/u64), or the
default body's panic (modelled as an error) where no impl overrides it
(f16/i16/u16). -/
def transmute_nums_to_parquet : NumVec → Except String ParquetVec
| .F32 xs => .ok (.float xs)
| .F64 xs => .ok (.double xs)
| .I32 xs => .ok (.int32 xs)
| .I64 xs => .ok (.int64 xs)
| .U32 xs => .ok (.int32 (U32.transmute_nums_to_parquet xs))
| .U64 xs => .ok (.int64 (U64.transmute_nums_to_parquet xs))
| .F16 _ => .error (transmute_panic_msg .F16)
| .I16 _ => .error (transmute_panic_msg .I16)
| .U16 _ => .error (transmute_panic_msg .U16)

/-- Dispatch of the allocating encode path over the erased kind: each arm is
the registered impl body (f16/i16/u16 override it), or the default body's
panic (modelled as an error) for the six kinds that never override it. -/
def copy_nums_to_parquet : NumVec → Except String ParquetVec
| .F16 xs => .ok (.float (F16.copy_nums_to_parquet xs))
| .I16 xs => .ok (.int32 (I16.copy_nums_to_parquet xs))
| .U16 xs => .ok (.int32 (U16.copy_nums_to_parquet xs))
| .F32 _ => .error (copy_panic_msg .F32)
| .F64 _ => .error (copy_panic_msg .F64)
| .I32 _ => .error (copy_panic_msg .I32)
| .I64 _ => .error (copy_panic_msg .I64)
| .U32 _ => .error (copy_panic_msg .U32)
| .U64 _ => .error (copy_panic_msg .U64)

/-- `t` occurs as a contiguous substring of `s`. -/
def containsStr (s t : String) : Prop := t.data <:+: s.data

instance (s t : String) : Decidable (containsStr s t) :=
  List.decidableInfix t.data s.data

instance : DecidableEq (Except String NumberType) :=
  fun a b =>
    match a, b with
    | .ok x, .ok y => decidable_of_iff (x = y) (by simp)
    | .error x, .error y => decidable_of_iff (x = y) (by simp)
    | .ok _, .error _ => isFalse (by simp)
    | .error _, .ok _ => isFalse (by simp)

end PcoDtypes

namespace PcoDtypes

lemma toUnsigned_toSigned_32 (x : Nat) (h : x < 2 ^ 32) :
    toUnsigned 32 (toSigned 32 x) = x := by
  simp only [toSigned, toUnsigned]
  split <;> omega

lemma toUnsigned_toSigned_64 (x : Nat) (h : x < 2 ^ 64) :
    toUnsigned 64 (toSigned 64 x) = x := by
  simp only [toSigned, toUnsigned]
  split <;> omega

lemma toSigned_32_mod (x : Nat) (h : x < 2 ^ 32) :
    toSigned 32 x % ((2 : Int) ^ 32) = (x : Int) := by
  simp only [toSigned]
  split <;> omega

lemma toSigned_64_mod (x : Nat) (h : x < 2 ^ 64) :
    toSigned 64 x % ((2 : Int) ^ 64) = (x : Int) := by
  simp only [toSigned]
  split <;> omega

lemma map_id_of_forall {α : Type} {f : α → α} {xs : List α}
    (h : ∀ x ∈ xs, f x = x) : xs.map f = xs :=
  (List.map_congr_left h).trans (List.map_id xs)

end PcoDtypes

namespace PcoDtypes

/-- C1: `from_arrow` resolves every supported Arrow descriptor (the nine
primitive numeric descriptors, Timestamp with any unit and timezone, Date32,
Date64) to its documented canonical kind, and every other descriptor (list,
struct, utf8, boolean, binary) to an error value whose message names the
offending descriptor; being a total Lean function over all modelled
descriptors, it never panics. -/
theorem from_arrow_resolution :
    from_arrow .float16 = .ok .F16 ∧
    from_arrow .float32 = .ok .F32 ∧
    from_arrow .float64 = .ok .F64 ∧
    from_arrow .int16 = .ok .I16 ∧
    from_arrow .int32 = .ok .I32 ∧
    from_arrow .int64 = .ok .I64 ∧
    from_arrow .uint16 = .ok .U16 ∧
    from_arrow .uint32 = .ok .U32 ∧
    from_arrow .uint64 = .ok .U64 ∧
    (∀ u tz, from_arrow (.timestamp u tz) = .ok .I64) ∧
    from_arrow .date32 = .ok .I32 ∧
    from_arrow .date64 = .ok .I64 ∧
    from_arrow .list = .error "unable to convert arrow dtype List to pco" ∧
    from_arrow .struct = .error "unable to convert arrow dtype Struct to pco" ∧
    from_arrow .utf8 = .error "unable to convert arrow dtype Utf8 to pco" ∧
    from_arrow .boolean = .error "unable to convert arrow dtype Boolean to pco" ∧
    from_arrow .binary = .error "unable to convert arrow dtype Binary to pco" ∧
    (∀ d : ArrowDataType,
      (∃ k, from_arrow d = .ok k) ∨
        (from_arrow d =
            .error ("unable to convert arrow dtype " ++ d.debugName ++ " to pco") ∧
          containsStr ("unable to convert arrow dtype " ++ d.debugName ++ " to pco")
            d.debugName)) := by
  refine ⟨rfl, rfl, rfl, rfl, rfl, rfl, rfl, rfl, rfl, fun u tz => rfl, rfl, rfl,
    rfl, rfl, rfl, rfl, rfl, ?_⟩
  intro d
  cases d <;> first
    | exact Or.inl ⟨_, rfl⟩
    | exact Or.inr ⟨rfl, by decide⟩

end PcoDtypes

namespace PcoDtypes

/-- C2: for u32 and u64 sequences, encode-by-reference
(`transmute_nums_to_parquet`) followed by decode (`parquet_to_nums`)
reproduces the original values exactly; the intermediate signed slot carries
the same bit pattern (its value modulo 2^w is the original unsigned value),
e.g. u32 value 4294967295 is stored as the signed slot value -1. -/
theorem unsigned_transmute_roundtrip :
    (∀ xs : List Nat, (∀ x ∈ xs, x < 2 ^ 32) →
        U32.parquet_to_nums (U32.transmute_nums_to_parquet xs) = xs) ∧
    (∀ xs : List Nat, (∀ x ∈ xs, x < 2 ^ 64) →
        U64.parquet_to_nums (U64.transmute_nums_to_parquet xs) = xs) ∧
    (∀ x : Nat, x < 2 ^ 32 → toSigned 32 x % ((2 : Int) ^ 32) = (x : Int)) ∧
    (∀ x : Nat, x < 2 ^ 64 → toSigned 64 x % ((2 : Int) ^ 64) = (x : Int)) ∧
    U32.transmute_nums_to_parquet [4294967295] = [-1] ∧
    U64.transmute_nums_to_parquet [18446744073709551615] = [-1] := by
  refine ⟨?_, ?_, toSigned_32_mod, toSigned_64_mod, by decide, by decide⟩
  · intro xs h
    simp only [U32.parquet_to_nums, U32.transmute_nums_to_parquet, List.map_map]
    exact map_id_of_forall fun x hx => toUnsigned_toSigned_32 x (h x hx)
  · intro xs h
    simp only [U64.parquet_to_nums, U64.transmute_nums_to_parquet, List.map_map]
    exact map_id_of_forall fun x hx => toUnsigned_toSigned_64 x (h x hx)

/-- Witness for C2: the round trip evaluated on the concrete u32 and u64
values named by the spec. -/
theorem unsigned_transmute_roundtrip_witness :
    U32.parquet_to_nums (U32.transmute_nums_to_parquet [0, 1, 2147483648, 4294967295]) =
      [0, 1, 2147483648, 4294967295] ∧
    U64.parquet_to_nums
        (U64.transmute_nums_to_parquet [0, 1, 9223372036854775808, 18446744073709551615]) =
      [0, 1, 9223372036854775808, 18446744073709551615] :=
  ⟨unsigned_transmute_roundtrip.1 _ (by decide),
   unsigned_transmute_roundtrip.2.1 _ (by decide)⟩

/-- C3: for every i16 value and every u16 value, encode-by-value
(`copy_nums_to_parquet`, widening to a 32-bit signed slot) followed by decode
(`parquet_to_nums`, truncating back to 16 bits) reproduces the original
value exactly. -/
theorem widening_roundtrip :
    (∀ xs : List Int, (∀ x ∈ xs, -(2 ^ 15) ≤ x ∧ x < 2 ^ 15) →
        I16.parquet_to_nums (I16.copy_nums_to_parquet xs) = xs) ∧
    (∀ xs : List Nat, (∀ x ∈ xs, x < 2 ^ 16) →
        U16.parquet_to_nums (U16.copy_nums_to_parquet xs) = xs) := by
  constructor
  · intro xs h
    simp only [I16.parquet_to_nums, I16.copy_nums_to_parquet, List.map_map]
    refine map_id_of_forall fun x hx => ?_
    have := h x hx
    simp only [Function.comp, I16.i32_as_i16]
    omega
  · intro xs h
    unfold U16.parquet_to_nums U16.copy_nums_to_parquet
    rw [List.map_map]
    refine map_id_of_forall fun x hx => ?_
    have := h x hx
    simp only [Function.comp_apply, U16.i32_as_u16, toUnsigned, Int.ofNat_eq_natCast]
    omega

/-- Witness for C3: the round trip evaluated on the boundary values named by
the spec. -/
theorem widening_roundtrip_witness :
    I16.parquet_to_nums (I16.copy_nums_to_parquet [-32768, 0, 32767]) = [-32768, 0, 32767] ∧
    U16.parquet_to_nums (U16.copy_nums_to_parquet [0, 65535]) = [0, 65535] :=
  ⟨widening_roundtrip.1 _ (by decide), widening_roundtrip.2 _ (by decide)⟩

end PcoDtypes

namespace PcoDtypes

/-- C4: for the f16 bit patterns 0x0000 (0.0), 0x8000 (-0.0), 0x3C00 (1.0)
and 0x0400 (the smallest normal half-precision value), encode-by-value to
32-bit floats (`copy_nums_to_parquet`) followed by decode
(`parquet_to_nums`) reproduces the identical f16 bit patterns. -/
theorem f16_roundtrip_bit_patterns :
    F16.parquet_to_nums (F16.copy_nums_to_parquet [0x0000, 0x8000, 0x3C00, 0x0400]) =
      [0x0000, 0x8000, 0x3C00, 0x0400] := by decide

/-- C5: the Parquet logical type string `PARQUET_DTYPE_STR` of each of the
nine canonical kinds is exactly the documented constant. -/
theorem parquet_dtype_strings :
    PARQUET_DTYPE_STR .F32 = "FLOAT" ∧
    PARQUET_DTYPE_STR .F64 = "DOUBLE" ∧
    PARQUET_DTYPE_STR .I32 = "INT32" ∧
    PARQUET_DTYPE_STR .I64 = "INT64" ∧
    PARQUET_DTYPE_STR .U32 = "INT32" ∧
    PARQUET_DTYPE_STR .U64 = "INT64" ∧
    PARQUET_DTYPE_STR .I16 = "INT32" ∧
    PARQUET_DTYPE_STR .U16 = "INT32" ∧
    PARQUET_DTYPE_STR .F16 = "FLOAT" := by decide

/-- C6: resolving a temporal Arrow descriptor is a deterministic, never
failing lossy projection: every Timestamp (any unit, any timezone) resolves
to I64, Date32 to I32, Date64 to I64; timestamps with different units give
the same result, and no function of the result can recover the unit. -/
theorem temporal_lossy_projection :
    (∀ u tz, from_arrow (.timestamp u tz) = .ok .I64) ∧
    from_arrow .date32 = .ok .I32 ∧
    from_arrow .date64 = .ok .I64 ∧
    (∀ u₁ tz₁ u₂ tz₂,
      from_arrow (.timestamp u₁ tz₁) = from_arrow (.timestamp u₂ tz₂)) ∧
    (∀ g : Except String NumberType → TimeUnit,
      ∃ u tz, g (from_arrow (.timestamp u tz)) ≠ u) := by
  refine ⟨fun u tz => rfl, rfl, rfl, fun u₁ tz₁ u₂ tz₂ => rfl, ?_⟩
  intro g
  by_cases h : g (.ok .I64) = .second
  · refine ⟨.millisecond, none, ?_⟩
    show g (.ok .I64) ≠ .millisecond
    rw [h]
    decide
  · exact ⟨.second, none, h⟩

/-- C7: the zero-copy capability flag `TRANSMUTABLE` is true for exactly
f32, f64, i32, i64, u32, u64 and false for exactly i16, u16, f16. -/
theorem transmutable_flags :
    TRANSMUTABLE .F32 = true ∧
    TRANSMUTABLE .F64 = true ∧
    TRANSMUTABLE .I32 = true ∧
    TRANSMUTABLE .I64 = true ∧
    TRANSMUTABLE .U32 = true ∧
    TRANSMUTABLE .U64 = true ∧
    TRANSMUTABLE .I16 = false ∧
    TRANSMUTABLE .U16 = false ∧
    TRANSMUTABLE .F16 = false := by decide

/-- C8: invoking the zero-copy encode path on a kind without a registered
transmute implementation (f16, i16, u16), or the allocating encode path on a
kind without a registered copy implementation (the other six kinds), fails
fast with the default-method panic whose message names the kind and the
Parquet capability; neither falls back to the other path. -/
theorem missing_capability_is_fatal :
    (∀ xs, transmute_nums_to_parquet (.F16 xs) = .error (transmute_panic_msg .F16)) ∧
    (∀ xs, transmute_nums_to_parquet (.I16 xs) = .error (transmute_panic_msg .I16)) ∧
    (∀ xs, transmute_nums_to_parquet (.U16 xs) = .error (transmute_panic_msg .U16)) ∧
    (∀ xs, copy_nums_to_parquet (.F32 xs) = .error (copy_panic_msg .F32)) ∧
    (∀ xs, copy_nums_to_parquet (.F64 xs) = .error (copy_panic_msg .F64)) ∧
    (∀ xs, copy_nums_to_parquet (.I32 xs) = .error (copy_panic_msg .I32)) ∧
    (∀ xs, copy_nums_to_parquet (.I64 xs) = .error (copy_panic_msg .I64)) ∧
    (∀ xs, copy_nums_to_parquet (.U32 xs) = .error (copy_panic_msg .U32)) ∧
    (∀ xs, copy_nums_to_parquet (.U64 xs) = .error (copy_panic_msg .U64)) ∧
    (∀ k, containsStr (transmute_panic_msg k) k.typeName ∧
      containsStr (transmute_panic_msg k) "Parquet" ∧
      containsStr (copy_panic_msg k) k.typeName ∧
      containsStr (copy_panic_msg k) "Parquet") := by
  refine ⟨fun _ => rfl, fun _ => rfl, fun _ => rfl, fun _ => rfl, fun _ => rfl,
    fun _ => rfl, fun _ => rfl, fun _ => rfl, fun _ => rfl, ?_⟩
  decide

/-- C9: `to_arrow` is total over the nine canonical kinds, each kind has a
distinct descriptor, and resolving that descriptor back with `from_arrow`
returns the kind. -/
theorem to_arrow_total_left_inverse :
    (∀ k, from_arrow (to_arrow k) = .ok k) ∧
    (∀ k₁ k₂, to_arrow k₁ = to_arrow k₂ → k₁ = k₂) := by
  constructor
  · decide
  · decide

/-- Witness for C9: both clauses applied at concrete kinds. -/
theorem to_arrow_total_left_inverse_witness :
    from_arrow (to_arrow .U32) = .ok .U32 ∧ NumberType.F32 = .F32 :=
  ⟨to_arrow_total_left_inverse.1 .U32,
   to_arrow_total_left_inverse.2 .F32 .F32 rfl⟩

/-- C10: decoding 32-bit signed slot values back to 16-bit kinds is total on
arbitrary input: `parquet_to_nums` maps every element, preserves the length,
and sends each element to its truncation modulo 2^16 (low 16 bits,
reinterpreted in two's complement for i16), so out-of-range values wrap
silently: e.g. 65536 decodes to 0 (i16) and -1 decodes to 65535 (u16). -/
theorem parquet_to_nums_16bit_truncates :
    (∀ vec : List Int, I16.parquet_to_nums vec = vec.map I16.i32_as_i16) ∧
    (∀ vec : List Int, U16.parquet_to_nums vec = vec.map U16.i32_as_u16) ∧
    (∀ vec : List Int, (I16.parquet_to_nums vec).length = vec.length) ∧
    (∀ vec : List Int, (U16.parquet_to_nums vec).length = vec.length) ∧
    (∀ x : Int, -(2 ^ 15) ≤ I16.i32_as_i16 x ∧ I16.i32_as_i16 x < 2 ^ 15 ∧
      I16.i32_as_i16 x % 2 ^ 16 = x % 2 ^ 16) ∧
    (∀ x : Int, U16.i32_as_u16 x < 2 ^ 16 ∧ (U16.i32_as_u16 x : Int) = x % 2 ^ 16) ∧
    I16.parquet_to_nums [65536, 98304, -1, 32768] = [0, -32768, -1, -32768] ∧
    U16.parquet_to_nums [-1, 65536, 2147483647] = [65535, 0, 65535] := by
  refine ⟨fun vec => rfl, fun vec => rfl,
    fun vec => List.length_map vec _, fun vec => List.length_map vec _,
    ?_, ?_, by decide, by decide⟩
  · intro x
    simp only [I16.i32_as_i16]
    omega
  · intro x
    simp only [U16.i32_as_u16, toUnsigned]
    omega

end PcoDtypes
